import Mathlib

/-!
Verification of the mirage-vpn parameter-search core against its
natural-language specification.

The development shallowly embeds the pure parts of
`tools/scanner/config_generator.py`, `tools/scanner/grid_search.py` and
`tools/scanner/tester.py`:

* Python dicts of parameter overrides become the typed `Overrides` record
  (one `Option` field per `PARAM_SPACE` key; `none` = key absent).  All
  override dicts this program constructs use exactly these keys with the
  value shapes declared in `PARAM_SPACE`, so the typed record covers every
  input the claims range over.
* The parsed-URI config dict becomes the `BaseConfig` record.  Fields the
  code reads with `config[...]` (always present on a well-formed descriptor)
  are plain fields; fields read with `config.get(...)` are `Option` fields.
* The generated xray JSON document becomes the `XrayDoc` record.  Constant
  parts of the document (log level, inbound tag/listen/auth/udp, outbound
  tag, user encryption) are fixed by the builder exactly as in the source;
  singleton JSON arrays (`users`, `servers`, `inbounds`, `outbounds`) are
  flattened into their single element.
* Python truthiness on optional strings/bools is made explicit through
  `sTruthy` / `pyOr` / `obTruthy`.
* The probe runner's interaction with the operating system (subprocess,
  clock, HTTP) is abstracted into a `ProbeEnv` oracle; the control flow of
  `test_single` over that oracle is embedded exactly.
-/

/-- Values occurring in `PARAM_SPACE` domains: strings, booleans, integers
and lists of strings (for ALPN). -/
inductive PVal where
  | s (v : String)
  | b (v : Bool)
  | n (v : Nat)
  | ls (v : List String)
deriving DecidableEq, Repr

/-- Python truthiness of an optional string (`None` and `""` are falsy). -/
def sTruthy (o : Option String) : Bool := o.getD "" ≠ ""

/-- Python `x or d` for an optional string `x`: the value when truthy,
otherwise the default. -/
def pyOr (o : Option String) (d : String) : String :=
  if sTruthy o then o.getD "" else d

/-- Python truthiness of an optional bool (`None` and `False` are falsy). -/
def obTruthy (o : Option Bool) : Bool := o.getD false

/-- Python `repr`-style rendering used by f-strings for override values
(`str(True) = "True"`, lists print with single-quoted elements). -/
def pvStr : PVal → String
  | .s v => v
  | .b true => "True"
  | .b false => "False"
  | .n v => toString v
  | .ls v => "[" ++ String.intercalate ", " (v.map (fun x => "'" ++ x ++ "'")) ++ "]"

/-- PARAM_SPACE from config_generator.py lines 10-27, in declaration order. -/
def PARAM_SPACE : List (String × List PVal) := [
  ("fragment_length", [.s "1-1", .s "10-20", .s "50-100", .s "100-200", .s "200-400", .s "517-517"]),
  ("fragment_interval", [.s "1-1", .s "2-5", .s "5-10", .s "10-20", .s "20-50"]),
  ("fragment_packets", [.s "tlshello", .s "1-2", .s "1-3", .s "1-5"]),
  ("fingerprint", [.s "chrome", .s "firefox", .s "safari", .s "edge", .s "qq", .s "random", .s "ios", .s "android"]),
  ("alpn", [.ls ["h2"], .ls ["http/1.1"], .ls ["h2", "http/1.1"]]),
  ("ech_enabled", [.b true, .b false]),
  ("ech_dns", [.b true, .b false]),
  ("tcp_no_delay", [.b true, .b false]),
  ("tcp_fast_open", [.b true, .b false]),
  ("mptcp", [.b true, .b false]),
  ("tcp_keep_alive", [.n 0, .n 15, .n 30, .n 60]),
  ("domain_strategy", [.s "AsIs", .s "UseIP", .s "UseIPv4"]),
  ("transport", [.s "ws", .s "xhttp", .s "tcp", .s "grpc", .s "h2"]),
  ("xhttp_mode", [.s "auto", .s "packet-up", .s "stream-up"])]

/-- PARAM_GROUPS from config_generator.py lines 30-42. -/
def PARAM_GROUPS : List (String × List String) := [
  ("fragment_length", ["fragment_length"]),
  ("fragment_interval", ["fragment_interval"]),
  ("fragment_packets", ["fragment_packets"]),
  ("fingerprint", ["fingerprint"]),
  ("alpn", ["alpn"]),
  ("ech", ["ech_enabled", "ech_dns"]),
  ("socket_options", ["tcp_no_delay", "tcp_fast_open", "mptcp", "tcp_keep_alive", "domain_strategy"]),
  ("transport", ["transport", "xhttp_mode"])]

/-- QUICK_PARAMS from config_generator.py lines 45-46. -/
def QUICK_PARAMS : List String :=
  ["fragment_length", "fragment_interval", "fragment_packets", "fingerprint", "alpn"]

/-- Lookup `PARAM_SPACE[key]`; `none` models `key not in PARAM_SPACE`. -/
def psFind (k : String) : Option (List PVal) :=
  (PARAM_SPACE.find? (fun p => p.1 = k)).map (fun p => p.2)

/-- Declared value domain of a dimension key (empty for unknown keys). -/
def paramDomain (k : String) : List PVal := (psFind k).getD []

/-- Python `PARAM_GROUPS.get(group_name, [group_name])`. -/
def groupKeys (g : String) : List String :=
  ((PARAM_GROUPS.find? (fun p => p.1 = g)).map (fun p => p.2)).getD [g]

/-- An override dict (`OverrideSet`): one optional field per `PARAM_SPACE`
key; `none` means the key is absent from the dict.  `{}` is the baseline. -/
structure Overrides where
  fragment_length : Option String := none
  fragment_interval : Option String := none
  fragment_packets : Option String := none
  fingerprint : Option String := none
  alpn : Option (List String) := none
  ech_enabled : Option Bool := none
  ech_dns : Option Bool := none
  tcp_no_delay : Option Bool := none
  tcp_fast_open : Option Bool := none
  mptcp : Option Bool := none
  tcp_keep_alive : Option Nat := none
  domain_strategy : Option String := none
  transport : Option String := none
  xhttp_mode : Option String := none
deriving DecidableEq, Repr

/-- The singleton dict `{key: value}` built by the sweep generator.  A
(key, value) pair outside the declared parameter space yields the empty
dict (unreachable for pairs drawn from `PARAM_SPACE`). -/
def mkSingle (k : String) (v : PVal) : Overrides :=
  match k, v with
  | "fragment_length", .s x => { fragment_length := some x }
  | "fragment_interval", .s x => { fragment_interval := some x }
  | "fragment_packets", .s x => { fragment_packets := some x }
  | "fingerprint", .s x => { fingerprint := some x }
  | "alpn", .ls x => { alpn := some x }
  | "ech_enabled", .b x => { ech_enabled := some x }
  | "ech_dns", .b x => { ech_dns := some x }
  | "tcp_no_delay", .b x => { tcp_no_delay := some x }
  | "tcp_fast_open", .b x => { tcp_fast_open := some x }
  | "mptcp", .b x => { mptcp := some x }
  | "tcp_keep_alive", .n x => { tcp_keep_alive := some x }
  | "domain_strategy", .s x => { domain_strategy := some x }
  | "transport", .s x => { transport := some x }
  | "xhttp_mode", .s x => { xhttp_mode := some x }
  | _, _ => {}

/-- Python `merged.update(d)`: fields present in `d` replace those of `m`. -/
def ovUpdate (m d : Overrides) : Overrides where
  fragment_length := d.fragment_length <|> m.fragment_length
  fragment_interval := d.fragment_interval <|> m.fragment_interval
  fragment_packets := d.fragment_packets <|> m.fragment_packets
  fingerprint := d.fingerprint <|> m.fingerprint
  alpn := d.alpn <|> m.alpn
  ech_enabled := d.ech_enabled <|> m.ech_enabled
  ech_dns := d.ech_dns <|> m.ech_dns
  tcp_no_delay := d.tcp_no_delay <|> m.tcp_no_delay
  tcp_fast_open := d.tcp_fast_open <|> m.tcp_fast_open
  mptcp := d.mptcp <|> m.mptcp
  tcp_keep_alive := d.tcp_keep_alive <|> m.tcp_keep_alive
  domain_strategy := d.domain_strategy <|> m.domain_strategy
  transport := d.transport <|> m.transport
  xhttp_mode := d.xhttp_mode <|> m.xhttp_mode

/-- Entries of an override dict as (key, rendered value) pairs.  The typed
record carries no insertion order, so entries are listed in `PARAM_SPACE`
declaration order; every dict the sweep generator builds is a singleton,
for which the order is immaterial. -/
def ovItems (ov : Overrides) : List (String × String) :=
  (([("fragment_length", ov.fragment_length.map PVal.s),
     ("fragment_interval", ov.fragment_interval.map PVal.s),
     ("fragment_packets", ov.fragment_packets.map PVal.s),
     ("fingerprint", ov.fingerprint.map PVal.s),
     ("alpn", ov.alpn.map PVal.ls),
     ("ech_enabled", ov.ech_enabled.map PVal.b),
     ("ech_dns", ov.ech_dns.map PVal.b),
     ("tcp_no_delay", ov.tcp_no_delay.map PVal.b),
     ("tcp_fast_open", ov.tcp_fast_open.map PVal.b),
     ("mptcp", ov.mptcp.map PVal.b),
     ("tcp_keep_alive", ov.tcp_keep_alive.map PVal.n),
     ("domain_strategy", ov.domain_strategy.map PVal.s),
     ("transport", ov.transport.map PVal.s),
     ("xhttp_mode", ov.xhttp_mode.map PVal.s)] :
       List (String × Option PVal)).filterMap
    (fun p => p.2.map (fun v => (p.1, pvStr v))))

/-- Normalized connection descriptor parsed from a proxy URI
(uri_parser.py).  Fields the builder reads with `config[...]` are plain;
fields read with `config.get(...)` are `Option` (absent = `none`). -/
structure BaseConfig where
  protocol : String
  address : String
  port : Nat
  uuid : String
  password : String
  method : String
  security : Option String := none
  tls : Option String := none
  flow : Option String := none
  alter_id : Option Nat := none
  transport : Option String := none
  path : Option String := none
  host : Option String := none
  sni : Option String := none
  public_key : Option String := none
  short_id : Option String := none
  fingerprint : Option String := none
  alpn : Option String := none
  allow_insecure : Option Bool := none
  fragment_length : Option String := none
  fragment_interval : Option String := none
  fragment_packets : Option String := none
deriving DecidableEq, Repr

/-- The `sockopt.fragment` object. -/
structure FragmentS where
  packets : String
  length : String
  interval : String
deriving DecidableEq, Repr

/-- The `sockopt` object of streamSettings. -/
structure SockoptS where
  fragment : Option FragmentS := none
  tcpNoDelay : Option Bool := none
  tcpFastOpen : Option Bool := none
  tcpMptcp : Option Bool := none
  tcpKeepAliveInterval : Option Nat := none
  domainStrategy : Option String := none
deriving DecidableEq, Repr

/-- The `ech` object inside tlsSettings. -/
structure EchS where
  enabled : Bool
  dnsQuery : Bool
deriving DecidableEq, Repr

/-- The `tlsSettings` object; `allowInsecure = false` models the key being
absent (the builder only ever writes the value `True`). -/
structure TlsS where
  serverName : String
  fingerprint : Option String := none
  alpn : Option (List String) := none
  ech : Option EchS := none
  allowInsecure : Bool := false
deriving DecidableEq, Repr

/-- The `realitySettings` object. -/
structure RealityS where
  serverName : String
  fingerprint : String
  publicKey : String
  shortId : String
deriving DecidableEq, Repr

/-- The `wsSettings` object; `hostHeader` is the optional Host header. -/
structure WsS where
  path : String
  hostHeader : Option String := none
deriving DecidableEq, Repr

/-- The `grpcSettings` object. -/
structure GrpcS where
  serviceName : String
deriving DecidableEq, Repr

/-- The `httpSettings` object (transport "h2"). -/
structure H2S where
  path : String
  host : Option (List String) := none
deriving DecidableEq, Repr

/-- The `xhttpSettings` object. -/
structure XhttpS where
  path : String
  host : Option String := none
  mode : Option String := none
deriving DecidableEq, Repr

/-- The `streamSettings` object.  The shadowsocks builder emits no
`security` key, hence the `Option`. -/
structure StreamSettings where
  network : String
  wsSettings : Option WsS := none
  grpcSettings : Option GrpcS := none
  httpSettings : Option H2S := none
  xhttpSettings : Option XhttpS := none
  security : Option String := none
  tlsSettings : Option TlsS := none
  realitySettings : Option RealityS := none
  sockopt : Option SockoptS := none
deriving DecidableEq, Repr

/-- Protocol-specific outbound `settings`, with the singleton
`users` / `servers` arrays flattened into their one element. -/
inductive OutSettings where
  | vless (address : String) (port : Nat) (id : String) (encryption : String) (flow : Option String)
  | vmess (address : String) (port : Nat) (id : String) (alterId : Nat) (security : String)
  | trojan (address : String) (port : Nat) (password : String)
  | shadowsocks (address : String) (port : Nat) (method : String) (password : String)
deriving DecidableEq, Repr

/-- The complete generated xray document.  Constant members (log level,
inbound tag "socks-in" / listen 127.0.0.1 / protocol socks / noauth /
udp true, outbound tag "proxy") are the same in every document and are
left implicit. -/
structure XrayDoc where
  inboundPort : Nat
  outProtocol : String
  settings : OutSettings
  stream : StreamSettings
deriving DecidableEq, Repr

/-- Model of `_apply_sockopt` (config_generator.py lines 274-307): the
sockopt object assembled from overrides with the (optional) config's
fragment values as defaults; `none` models `sockopt` being empty and
therefore not attached to streamSettings. -/
def applySockopt (ov : Overrides) (cfg : Option BaseConfig) : Option SockoptS :=
  let frag_len := ov.fragment_length <|> (cfg.bind (fun c => c.fragment_length))
  let frag_int := ov.fragment_interval <|> (cfg.bind (fun c => c.fragment_interval))
  let frag_pkt := ov.fragment_packets <|> (cfg.bind (fun c => c.fragment_packets))
  let sock : SockoptS :=
    { fragment :=
        if sTruthy frag_len || sTruthy frag_int || sTruthy frag_pkt then
          some { packets := pyOr frag_pkt "tlshello"
                 length := pyOr frag_len "100-200"
                 interval := pyOr frag_int "10-20" }
        else none
      tcpNoDelay := ov.tcp_no_delay
      tcpFastOpen := ov.tcp_fast_open
      tcpMptcp := ov.mptcp
      tcpKeepAliveInterval := ov.tcp_keep_alive
      domainStrategy := ov.domain_strategy }
  if sock = {} then none else some sock

/-- The `wsSettings` block of `_build_stream_settings` (config_generator.py
lines 194-201). -/
def wsPart (cfg : BaseConfig) (transport : String) : Option WsS :=
  if transport = "ws" then
    some { path := cfg.path.getD "/"
           hostHeader := if sTruthy cfg.host then some (cfg.host.getD "") else none }
  else none

/-- The `grpcSettings` block (config_generator.py lines 203-206). -/
def grpcPart (cfg : BaseConfig) (transport : String) : Option GrpcS :=
  if transport = "grpc" then some { serviceName := cfg.path.getD "" } else none

/-- The `httpSettings` block (config_generator.py lines 208-214). -/
def h2Part (cfg : BaseConfig) (transport : String) : Option H2S :=
  if transport = "h2" then
    some { path := cfg.path.getD "/"
           host := if sTruthy cfg.host then some [cfg.host.getD ""] else none }
  else none

/-- The `xhttpSettings` block (config_generator.py lines 216-225). -/
def xhttpPart (cfg : BaseConfig) (ov : Overrides) (transport : String) : Option XhttpS :=
  if transport = "xhttp" then
    some { path := cfg.path.getD "/"
           host := if sTruthy cfg.host then some (cfg.host.getD "") else none
           mode := if sTruthy ov.xhttp_mode then some (ov.xhttp_mode.getD "") else none }
  else none

/-- The TLS / REALITY dispatch of `_build_stream_settings`
(config_generator.py lines 227-262), returning the `security` label, the
`tlsSettings` and the `realitySettings`.

The source's final `allowInsecure` passthrough (lines 267-269) is guarded
by `config.get("allow_insecure") and "tlsSettings" in stream`; `tlsSettings`
is present exactly when this function takes its `"tls"` branch, so the
passthrough is folded into that branch here. -/
def secPart (cfg : BaseConfig) (ov : Overrides) (security : String) :
    String × Option TlsS × Option RealityS :=
  if security = "reality" then
    ("reality", none,
      some { serverName := cfg.sni.getD ""
             fingerprint := (ov.fingerprint <|> cfg.fingerprint).getD "chrome"
             publicKey := cfg.public_key.getD ""
             shortId := cfg.short_id.getD "" })
  else if security = "tls" then
    let fp := (ov.fingerprint <|> cfg.fingerprint).getD ""
    let alpn :=
      match ov.alpn with
      | some a => a
      | none => if sTruthy cfg.alpn then (cfg.alpn.getD "").splitOn "," else []
    ("tls",
      some { serverName := cfg.sni.getD cfg.address
             fingerprint := if fp ≠ "" then some fp else none
             alpn := if alpn ≠ [] then some alpn else none
             ech := if obTruthy ov.ech_enabled then
                      some { enabled := true, dnsQuery := ov.ech_dns.getD false }
                    else none
             allowInsecure := obTruthy cfg.allow_insecure },
      none)
  else ("none", none, none)

/-- Model of `_build_stream_settings` (config_generator.py lines 187-271):
the incremental dict construction of the source assembles exactly this
record. -/
def buildStreamSettings (cfg : BaseConfig) (ov : Overrides)
    (security transport : String) : StreamSettings :=
  { network := transport
    wsSettings := wsPart cfg transport
    grpcSettings := grpcPart cfg transport
    httpSettings := h2Part cfg transport
    xhttpSettings := xhttpPart cfg ov transport
    security := some (secPart cfg ov security).1
    tlsSettings := (secPart cfg ov security).2.1
    realitySettings := (secPart cfg ov security).2.2
    sockopt := applySockopt ov (some cfg) }

/-- Model of `_build_vless_outbound` (config_generator.py lines 88-114). -/
def buildVlessOutbound (cfg : BaseConfig) (ov : Overrides) : String × OutSettings × StreamSettings :=
  let security := cfg.security.getD "tls"
  let transport := (ov.transport <|> cfg.transport).getD "tcp"
  let flow : Option String :=
    if security = "reality" then some (cfg.flow.getD "xtls-rprx-vision") else none
  ("vless",
   .vless cfg.address cfg.port cfg.uuid "none" flow,
   buildStreamSettings cfg ov security transport)

/-- Model of `_build_vmess_outbound` (config_generator.py lines 117-142). -/
def buildVmessOutbound (cfg : BaseConfig) (ov : Overrides) : String × OutSettings × StreamSettings :=
  let transport := (ov.transport <|> cfg.transport).getD "ws"
  let tls_type := cfg.tls.getD "tls"
  let security_type := if tls_type = "tls" then "tls" else "none"
  ("vmess",
   .vmess cfg.address cfg.port cfg.uuid (cfg.alter_id.getD 0) (cfg.security.getD "auto"),
   buildStreamSettings cfg ov security_type transport)

/-- Model of `_build_trojan_outbound` (config_generator.py lines 145-164). -/
def buildTrojanOutbound (cfg : BaseConfig) (ov : Overrides) : String × OutSettings × StreamSettings :=
  let transport := (ov.transport <|> cfg.transport).getD "tcp"
  let tls_type := cfg.tls.getD "tls"
  let security_type := if tls_type = "tls" then "tls" else "none"
  ("trojan",
   .trojan cfg.address cfg.port cfg.password,
   buildStreamSettings cfg ov security_type transport)

/-- Stream dict of `_build_shadowsocks_outbound` (config_generator.py
lines 176-177).  Note: `_apply_sockopt(stream, overrides)` is called
without the config argument, so the BaseConfig's fragment fields are not
consulted. -/
def ssStream (ov : Overrides) : StreamSettings :=
  { network := "tcp", sockopt := applySockopt ov none }

/-- Model of `_build_shadowsocks_outbound` (config_generator.py lines
167-184): tag, settings and the stream assembled above. -/
def buildShadowsocksOutbound (cfg : BaseConfig) (ov : Overrides) : String × OutSettings × StreamSettings :=
  ("shadowsocks",
   .shadowsocks cfg.address cfg.port cfg.method cfg.password,
   ssStream ov)

/-- Model of `build_xray_json` (config_generator.py lines 49-85): dispatch
on the protocol variant; an unrecognized variant raises `ValueError`,
modelled as `Except.error`. -/
def build_xray_json (cfg : BaseConfig) (ov : Overrides) (socks_port : Nat) :
    Except String XrayDoc :=
  if cfg.protocol = "vless" then
    let o := buildVlessOutbound cfg ov
    .ok { inboundPort := socks_port, outProtocol := o.1, settings := o.2.1, stream := o.2.2 }
  else if cfg.protocol = "vmess" then
    let o := buildVmessOutbound cfg ov
    .ok { inboundPort := socks_port, outProtocol := o.1, settings := o.2.1, stream := o.2.2 }
  else if cfg.protocol = "trojan" then
    let o := buildTrojanOutbound cfg ov
    .ok { inboundPort := socks_port, outProtocol := o.1, settings := o.2.1, stream := o.2.2 }
  else if cfg.protocol = "shadowsocks" then
    let o := buildShadowsocksOutbound cfg ov
    .ok { inboundPort := socks_port, outProtocol := o.1, settings := o.2.1, stream := o.2.2 }
  else .error ("Unsupported protocol: " ++ cfg.protocol)

/-- Cartesian product in `itertools.product` order: the first list varies
slowest. -/
def listProd {α : Type} : List (List α) → List (List α)
  | [] => [[]]
  | xs :: rest => xs.flatMap (fun x => (listProd rest).map (fun c => x :: c))

/-- Body of the inner sweep loop of `generate_smart_grid`
(config_generator.py lines 326-331): the singleton test cases contributed
by one dimension key — none when the key is not in `PARAM_SPACE`, one per
declared value otherwise. -/
def sweepForKey (k : String) : List (Overrides × String) :=
  match psFind k with
  | none => []
  | some dom => dom.map (fun v => (mkSingle k v, k ++ "=" ++ pvStr v))

/-- Model of `generate_smart_grid` (config_generator.py lines 310-333):
baseline first, then one singleton override per (key, value) pair of the
requested groups' member dimensions.  The config argument is accepted but
never read, exactly as in the source. -/
def generate_smart_grid (_config : BaseConfig) (param_groups : List String) :
    List (Overrides × String) :=
  ({}, "baseline (no changes)") ::
    param_groups.flatMap (fun g => (groupKeys g).flatMap sweepForKey)

/-- Model of `generate_combination_grid` (config_generator.py lines
336-369).  The winners dict is an association list in insertion order; each
entry carries that group's winning override sets with their latencies,
already sorted ascending by the caller. -/
def generate_combination_grid (winners : List (String × List (Overrides × Int)))
    (top_n : Nat := 3) : List (Overrides × String) :=
  let dimension_tops : List (String × List Overrides) :=
    winners.map (fun gr => (gr.1, (gr.2.take top_n).map (fun r => r.1)))
  if dimension_tops.isEmpty then []
  else
    let value_lists := dimension_tops.map (fun d => d.2)
    (listProd value_lists).map (fun combo =>
      (combo.foldl ovUpdate {},
       String.intercalate " + "
         (combo.flatMap (fun dimOv => (ovItems dimOv).map (fun p => p.1 ++ "=" ++ p.2)))))

/-- Model of `generate_quick_grid` (config_generator.py lines 399-401). -/
def generate_quick_grid (config : BaseConfig) : List (Overrides × String) :=
  generate_smart_grid config QUICK_PARAMS

/-- The group list `quick_search` passes to `smart_search`
(grid_search.py line 155). -/
def quickSearchGroups : List String := ["fragment", "fingerprint", "alpn"]

/-- Sweep cases actually probed by `smart_search` phase 2 (grid_search.py
lines 67-69): the smart grid with the baseline entry filtered out
(`if o`, dict truthiness = non-emptiness). -/
def smartSweepCases (config : BaseConfig) (param_groups : List String) :
    List (Overrides × String) :=
  (generate_smart_grid config param_groups).filter (fun t => t.1 ≠ {})

/-- Combination cases probed by `smart_search` phase 3 (grid_search.py
lines 99-111): the combination grid with `top_n = 3`, generated only when
more than one group has winners. -/
def smartCombineCases (winners : List (String × List (Overrides × Int))) :
    List (Overrides × String) :=
  if winners.length > 1 then generate_combination_grid winners 3 else []

/-- A probe planned by the orchestrator: the built document together with
the `_overrides` / `_description` attribution stamped onto it
(grid_search.py lines 54-56 and 72-76). -/
structure PlannedProbe where
  doc : XrayDoc
  overrides : Overrides
  description : String
deriving DecidableEq, Repr

/-- Document-building part of `smart_search` phases 1-2 (grid_search.py
lines 50-81): the baseline document and the sweep documents, built before
any probe runs; a build error aborts the run before probing. -/
def smartPhase12Docs (config : BaseConfig) (param_groups : List String) :
    Except String (PlannedProbe × List PlannedProbe) := do
  let base ← build_xray_json config {} 10808
  let sweeps ← (smartSweepCases config param_groups).mapM
    (fun t => (build_xray_json config t.1 10808).map
      (fun d => ({ doc := d, overrides := t.1, description := t.2 } : PlannedProbe)))
  pure ({ doc := base, overrides := {}, description := "baseline (no changes)" }, sweeps)

/-- Model of the `TestResult` dataclass (tester.py lines 25-32).  The float
speed field is modelled as an integer-valued measurement with the same -1
sentinel; none of the verified properties depend on its fractional part. -/
structure TestResult where
  params : Overrides := {}
  description : String := ""
  success : Bool := false
  latency_ms : Int := -1
  speed_mbps : Int := -1
  error : String := ""
deriving DecidableEq, Repr

/-- Outcome of the connectivity step of one probe, as observed from the
environment: either the GET completed with an HTTP status and a measured
non-negative wall-clock latency (possibly followed by an error raised
after the result fields were set, e.g. on session close), or it raised a
timeout / client error / other exception. -/
inductive ConnOutcome where
  | ok (status : Nat) (elapsed_ms : Nat) (lateErr : Option String)
  | timedOut
  | clientError (msg : String)
  | exn (msg : String)
deriving DecidableEq, Repr

/-- Environment oracle for one probe: whether the xray child exited before
the settle delay (and with which code), the connectivity outcome, and the
measured speed value when the optional speed test succeeds (`none` models
a swallowed speed-test failure). -/
structure ProbeEnv where
  exitedEarly : Option Int := none
  conn : ConnOutcome := .timedOut
  speed : Option Int := none
deriving DecidableEq, Repr

/-- Model of `test_single` (tester.py lines 54-162): the construction of
the returned `TestResult` as a function of the document's attribution and
the probe environment.  Port allocation, temp-file I/O and process
teardown do not touch the result and are omitted; every failure path of
the source stores its error on the result and falls through to `return
result`. -/
def test_single (params : Overrides) (description : String)
    (env : ProbeEnv) (measure_speed : Bool) : TestResult :=
  let r0 : TestResult := { params := params, description := description }
  match env.exitedEarly with
  | some code => { r0 with error := "xray exited with code " ++ toString code }
  | none =>
    match env.conn with
    | .ok status elapsed_ms lateErr =>
      if status = 200 ∨ status = 204 then
        let r1 := { r0 with success := true, latency_ms := (elapsed_ms : Int) }
        let r2 :=
          if measure_speed then
            match env.speed with
            | some v => { r1 with speed_mbps := v }
            | none => r1
          else r1
        match lateErr with
        | some e => { r2 with error := e }
        | none => r2
      else { r0 with error := "HTTP " ++ toString status }
    | .timedOut => { r0 with error := "timeout" }
    | .clientError e => { r0 with error := e }
    | .exn e => { r0 with error := e }

/-- Model of `run_batch` (tester.py lines 165-205).  Each document spawns
one task; the semaphore only bounds how many run at once, every task
completes exactly once and appends its result under the lock, so the
shared results list is the per-test results in completion order.  The
scheduler's choice of completion order is an arbitrary permutation
`order` of the task indices. -/
def run_batch (tests : List (Overrides × String)) (env : Nat → ProbeEnv)
    (measure_speed : Bool) (order : List Nat) : List TestResult :=
  order.filterMap (fun i =>
    (tests[i]?).map (fun t => test_single t.1 t.2 (env i) measure_speed))

/-- Base of the rotating port pool (tester.py line 41). -/
def BASE_PORT : Nat := 20000

/-- Model of `_next_port` (tester.py lines 46-51): the counter update and
returned port of one allocation, as a function of the counter value. -/
def next_port (counter : Nat) : Nat × Nat :=
  (BASE_PORT + counter % 10000, counter + 1)

/-- Ports returned by `n` consecutive serialized allocations starting from
counter value `c` (allocation is serialized by `_port_lock`). -/
def allocPorts (c : Nat) : Nat → List Nat
  | 0 => []
  | n + 1 =>
    let p := next_port c
    p.1 :: allocPorts p.2 n

/-- The four recognized protocol variants (config_generator.py lines 59-68). -/
def recognizedProtocols : List String := ["vless", "vmess", "trojan", "shadowsocks"]

/-- Python dict truthiness of the assembled sockopt: an empty sockopt is
not attached to the stream; erasing the last member of a sockopt must
therefore collapse `some {}` to `none` to compare documents field-wise. -/
def sockoptNorm (o : Option SockoptS) : Option SockoptS :=
  match o with
  | none => none
  | some s => if s = {} then none else some s

/-- Rewrite the tlsSettings, when present. -/
def mapTlsS (f : TlsS → TlsS) (s : StreamSettings) : StreamSettings :=
  { s with tlsSettings := s.tlsSettings.map f }

/-- Rewrite the realitySettings, when present. -/
def mapRealityS (f : RealityS → RealityS) (s : StreamSettings) : StreamSettings :=
  { s with realitySettings := s.realitySettings.map f }

/-- Rewrite the sockopt, when present, collapsing it when it becomes empty. -/
def mapSockS (f : SockoptS → SockoptS) (s : StreamSettings) : StreamSettings :=
  { s with sockopt := sockoptNorm (s.sockopt.map f) }

/-- Rewrite the sockopt.fragment object, when present. -/
def mapFragS (f : FragmentS → FragmentS) (s : StreamSettings) : StreamSettings :=
  { s with sockopt := s.sockopt.map (fun so => { so with fragment := so.fragment.map f }) }

/-- Rewrite the tlsSettings.ech object, when present. -/
def mapEchS (f : EchS → EchS) (s : StreamSettings) : StreamSettings :=
  mapTlsS (fun t => { t with ech := t.ech.map f }) s

/-- Rewrite the xhttpSettings, when present. -/
def mapXhttpS (f : XhttpS → XhttpS) (s : StreamSettings) : StreamSettings :=
  { s with xhttpSettings := s.xhttpSettings.map f }

/-- Erase, in a streamSettings, the single field that dimension key `k`
controls (the claim's "field corresponding to K"). -/
def eraseParamFieldS (k : String) (s : StreamSettings) : StreamSettings :=
  match k with
  | "fragment_length" => mapFragS (fun fr => { fr with length := "" }) s
  | "fragment_interval" => mapFragS (fun fr => { fr with interval := "" }) s
  | "fragment_packets" => mapFragS (fun fr => { fr with packets := "" }) s
  | "fingerprint" =>
      mapRealityS (fun r => { r with fingerprint := "" })
        (mapTlsS (fun t => { t with fingerprint := none }) s)
  | "alpn" => mapTlsS (fun t => { t with alpn := none }) s
  | "ech_enabled" => mapEchS (fun e => { e with enabled := false }) s
  | "ech_dns" => mapEchS (fun e => { e with dnsQuery := false }) s
  | "tcp_no_delay" => mapSockS (fun s0 => { s0 with tcpNoDelay := none }) s
  | "tcp_fast_open" => mapSockS (fun s0 => { s0 with tcpFastOpen := none }) s
  | "mptcp" => mapSockS (fun s0 => { s0 with tcpMptcp := none }) s
  | "tcp_keep_alive" => mapSockS (fun s0 => { s0 with tcpKeepAliveInterval := none }) s
  | "domain_strategy" => mapSockS (fun s0 => { s0 with domainStrategy := none }) s
  | "transport" => { s with network := "" }
  | "xhttp_mode" => mapXhttpS (fun x => { x with mode := none }) s
  | _ => s

/-- Erase, in a document, the single field that dimension key `k`
controls.  Two documents differ only in that field and nowhere else
precisely when this erasure makes them equal. -/
def eraseParamField (k : String) (d : XrayDoc) : XrayDoc :=
  { d with stream := eraseParamFieldS k d.stream }

/-- Erase, in a streamSettings, the whole field group that dimension key
`k` controls: the entire `sockopt.fragment` triple for a fragment key
(the builder fills the other two members with fixed defaults), the entire
`ech` object for `ech_enabled` (the builder emits its `dnsQuery` member
alongside), the `network` field together with all transport-settings
sections for `transport`, and exactly the single field of
`eraseParamFieldS` for every other key. -/
def eraseParamGroupFieldS (k : String) (s : StreamSettings) : StreamSettings :=
  match k with
  | "fragment_length" => mapSockS (fun s0 => { s0 with fragment := none }) s
  | "fragment_interval" => mapSockS (fun s0 => { s0 with fragment := none }) s
  | "fragment_packets" => mapSockS (fun s0 => { s0 with fragment := none }) s
  | "ech_enabled" => mapTlsS (fun t => { t with ech := none }) s
  | "transport" =>
      { s with network := "", wsSettings := none, grpcSettings := none,
               httpSettings := none, xhttpSettings := none }
  | _ => eraseParamFieldS k s

/-- Erase, in a document, the whole field group that dimension key `k`
controls. -/
def eraseParamGroupField (k : String) (d : XrayDoc) : XrayDoc :=
  { d with stream := eraseParamGroupFieldS k d.stream }

/-- A representative parsed vless-over-TLS descriptor, used to instantiate
hypotheses at concrete inputs. -/
def sampleVlessTls : BaseConfig := {
  protocol := "vless", address := "example.com", port := 443,
  uuid := "8a31b8f6-0cc0-4a63-9b49-90b83e3b9f94", password := "", method := "",
  security := some "tls", transport := some "ws", path := some "/ws",
  host := some "cdn.example.com", sni := some "sni.example.com" }

/-- A representative parsed shadowsocks descriptor carrying its own
fragment setting. -/
def sampleSsFrag : BaseConfig := {
  protocol := "shadowsocks", address := "198.51.100.7", port := 8388,
  uuid := "", password := "secret", method := "aes-256-gcm",
  fragment_length := some "50-100" }

/-- A representative parsed trojan descriptor carrying its own fragment
setting. -/
def sampleTrojanFrag : BaseConfig := {
  protocol := "trojan", address := "203.0.113.9", port := 443,
  uuid := "", password := "trojan-pass", method := "",
  sni := some "cdn.example.org", fragment_length := some "50-100" }

/-- A descriptor with an unrecognized protocol variant. -/
def sampleUnknownProto : BaseConfig := {
  protocol := "socks5", address := "198.51.100.7", port := 1080,
  uuid := "", password := "", method := "" }

/-- The claim that for every singleton override {K: V} with V in K's
domain, the generated document differs from the baseline document only in
the single field corresponding to K (the inbound port, given equal port
arguments, is equal anyway): erasing that one field must make the two
documents equal. -/
def singleFieldFrameClaim : Prop :=
  ∀ (cfg : BaseConfig) (port : Nat) (k : String) (v : PVal),
    v ∈ paramDomain k →
    (build_xray_json cfg (mkSingle k v) port).map (eraseParamField k) =
    (build_xray_json cfg {} port).map (eraseParamField k)

/-- The security mode the builder effectively dispatches on for a given
BaseConfig: the vless path uses `config.get("security", "tls")`
(config_generator.py line 90); the vmess and trojan paths use
`config.get("tls", "tls")` reduced to "tls" or "none" (lines 120-121 and
148-149); shadowsocks has no TLS section and any other protocol never
reaches a security dispatch. -/
def effSecurity (cfg : BaseConfig) : String :=
  if cfg.protocol = "vless" then
    let s := cfg.security.getD "tls"
    if s = "reality" then "reality" else if s = "tls" then "tls" else "none"
  else if cfg.protocol = "vmess" ∨ cfg.protocol = "trojan" then
    if cfg.tls.getD "tls" = "tls" then "tls" else "none"
  else "none"

/-- The `sockopt.fragment.length` value of a generated document, when the
fragment block is present. -/
def fragLenOf (d : XrayDoc) : Option String :=
  (d.stream.sockopt.bind (fun s => s.fragment)).map (fun fr => fr.length)

/-- The claim that for every recognized protocol variant, a fragment
length carried by the BaseConfig itself is used as the default whenever
no fragment override is given: the baseline document's fragment block
carries the config's value. -/
def configFragmentDefaultClaim : Prop :=
  ∀ (cfg : BaseConfig) (port : Nat) (l : String),
    cfg.protocol ∈ recognizedProtocols →
    cfg.fragment_length = some l → l ≠ "" →
    (build_xray_json cfg {} port).map fragLenOf = .ok (some l)

/-- Whether an override dict touches any fragmentation dimension. -/
def touchesFragment (ov : Overrides) : Bool :=
  ov.fragment_length.isSome || ov.fragment_interval.isSome || ov.fragment_packets.isSome

/-- Number of sweep cases a requested group contributes: the sum of the
value-domain sizes of its member dimensions that exist in `PARAM_SPACE`. -/
def groupSweepLen (g : String) : Nat :=
  ((groupKeys g).map (fun k => (paramDomain k).length)).sum

instance {ε α : Type} [DecidableEq ε] [DecidableEq α] : DecidableEq (Except ε α) := fun a b =>
  match a, b with
  | .ok x, .ok y => decidable_of_iff (x = y) (by simp)
  | .error x, .error y => decidable_of_iff (x = y) (by simp)
  | .ok _, .error _ => isFalse (by simp)
  | .error _, .ok _ => isFalse (by simp)

lemma eraseG_fraglen (s : StreamSettings) :
    eraseParamGroupFieldS "fragment_length" s =
    mapSockS (fun s0 => { s0 with fragment := none }) s := rfl

lemma eraseG_fragint (s : StreamSettings) :
    eraseParamGroupFieldS "fragment_interval" s =
    mapSockS (fun s0 => { s0 with fragment := none }) s := rfl

lemma eraseG_fragpkt (s : StreamSettings) :
    eraseParamGroupFieldS "fragment_packets" s =
    mapSockS (fun s0 => { s0 with fragment := none }) s := rfl

lemma eraseG_fp (s : StreamSettings) :
    eraseParamGroupFieldS "fingerprint" s =
    mapRealityS (fun r => { r with fingerprint := "" })
      (mapTlsS (fun t => { t with fingerprint := none }) s) := rfl

lemma eraseG_alpn (s : StreamSettings) :
    eraseParamGroupFieldS "alpn" s = mapTlsS (fun t => { t with alpn := none }) s := rfl

lemma eraseG_echen (s : StreamSettings) :
    eraseParamGroupFieldS "ech_enabled" s = mapTlsS (fun t => { t with ech := none }) s := rfl

lemma eraseG_echdns (s : StreamSettings) :
    eraseParamGroupFieldS "ech_dns" s =
    mapTlsS (fun t => { t with ech := t.ech.map (fun e => { e with dnsQuery := false }) }) s := rfl

lemma eraseG_tnd (s : StreamSettings) :
    eraseParamGroupFieldS "tcp_no_delay" s =
    mapSockS (fun s0 => { s0 with tcpNoDelay := none }) s := rfl

lemma eraseG_tfo (s : StreamSettings) :
    eraseParamGroupFieldS "tcp_fast_open" s =
    mapSockS (fun s0 => { s0 with tcpFastOpen := none }) s := rfl

lemma eraseG_mptcp (s : StreamSettings) :
    eraseParamGroupFieldS "mptcp" s =
    mapSockS (fun s0 => { s0 with tcpMptcp := none }) s := rfl

lemma eraseG_tka (s : StreamSettings) :
    eraseParamGroupFieldS "tcp_keep_alive" s =
    mapSockS (fun s0 => { s0 with tcpKeepAliveInterval := none }) s := rfl

lemma eraseG_ds (s : StreamSettings) :
    eraseParamGroupFieldS "domain_strategy" s =
    mapSockS (fun s0 => { s0 with domainStrategy := none }) s := rfl

lemma eraseG_xhm (s : StreamSettings) :
    eraseParamGroupFieldS "xhttp_mode" s =
    mapXhttpS (fun x => { x with mode := none }) s := rfl

lemma secPart_label (cfg : BaseConfig) (ov ov2 : Overrides) (sec : String) :
    (secPart cfg ov sec).1 = (secPart cfg ov2 sec).1 := by
  simp only [secPart]
  split_ifs <;> rfl

lemma secPart_reality_eq (cfg : BaseConfig) (ov ov2 : Overrides) (sec : String)
    (hfp : ov.fingerprint = ov2.fingerprint) :
    (secPart cfg ov sec).2.2 = (secPart cfg ov2 sec).2.2 := by
  simp only [secPart, hfp]
  split_ifs <;> rfl

lemma tlsErase_fp (cfg : BaseConfig) (sec x : String) :
    ((secPart cfg { fingerprint := some x } sec).2.1).map (fun t => { t with fingerprint := none }) =
    ((secPart cfg {} sec).2.1).map (fun t => { t with fingerprint := none }) := by
  simp only [secPart]
  split_ifs <;> rfl

lemma realityErase_fp (cfg : BaseConfig) (sec x : String) :
    ((secPart cfg { fingerprint := some x } sec).2.2).map (fun r => { r with fingerprint := "" }) =
    ((secPart cfg {} sec).2.2).map (fun r => { r with fingerprint := "" }) := by
  simp only [secPart]
  split_ifs <;> rfl

lemma tlsErase_alpn (cfg : BaseConfig) (sec : String) (xs : List String) :
    ((secPart cfg { alpn := some xs } sec).2.1).map (fun t => { t with alpn := none }) =
    ((secPart cfg {} sec).2.1).map (fun t => { t with alpn := none }) := by
  simp only [secPart]
  split_ifs <;> rfl

lemma tlsErase_echen (cfg : BaseConfig) (sec : String) (b : Bool) :
    ((secPart cfg { ech_enabled := some b } sec).2.1).map (fun t => { t with ech := none }) =
    ((secPart cfg {} sec).2.1).map (fun t => { t with ech := none }) := by
  simp only [secPart, obTruthy]
  split_ifs <;> first | rfl | simp_all

lemma tls_echdns (cfg : BaseConfig) (sec : String) (b : Bool) :
    (secPart cfg { ech_dns := some b } sec).2.1 = (secPart cfg {} sec).2.1 := by
  simp only [secPart, obTruthy]
  split_ifs <;> first | rfl | simp_all

lemma xhttpErase_mode (cfg : BaseConfig) (tr x : String) :
    (xhttpPart cfg { xhttp_mode := some x } tr).map (fun s0 => { s0 with mode := none }) =
    (xhttpPart cfg {} tr).map (fun s0 => { s0 with mode := none }) := by
  simp only [xhttpPart, sTruthy]
  split_ifs <;> first | rfl | simp_all

lemma sockErase_fraglen (c : Option BaseConfig) (x : String) :
    sockoptNorm ((applySockopt { fragment_length := some x } c).map
      (fun s0 => { s0 with fragment := none })) =
    sockoptNorm ((applySockopt {} c).map (fun s0 => { s0 with fragment := none })) := by
  simp only [applySockopt, sockoptNorm, Option.some_orElse, Option.none_orElse]
  split_ifs <;> first | rfl | simp_all

lemma sockErase_fragint (c : Option BaseConfig) (x : String) :
    sockoptNorm ((applySockopt { fragment_interval := some x } c).map
      (fun s0 => { s0 with fragment := none })) =
    sockoptNorm ((applySockopt {} c).map (fun s0 => { s0 with fragment := none })) := by
  simp only [applySockopt, sockoptNorm, Option.some_orElse, Option.none_orElse]
  split_ifs <;> first | rfl | simp_all

lemma sockErase_fragpkt (c : Option BaseConfig) (x : String) :
    sockoptNorm ((applySockopt { fragment_packets := some x } c).map
      (fun s0 => { s0 with fragment := none })) =
    sockoptNorm ((applySockopt {} c).map (fun s0 => { s0 with fragment := none })) := by
  simp only [applySockopt, sockoptNorm, Option.some_orElse, Option.none_orElse]
  split_ifs <;> first | rfl | simp_all

lemma sockErase_tnd (c : Option BaseConfig) (b : Bool) :
    sockoptNorm ((applySockopt { tcp_no_delay := some b } c).map
      (fun s0 => { s0 with tcpNoDelay := none })) =
    sockoptNorm ((applySockopt {} c).map (fun s0 => { s0 with tcpNoDelay := none })) := by
  simp only [applySockopt, sockoptNorm, Option.some_orElse, Option.none_orElse]
  split_ifs <;> first | rfl | simp_all

lemma sockErase_tfo (c : Option BaseConfig) (b : Bool) :
    sockoptNorm ((applySockopt { tcp_fast_open := some b } c).map
      (fun s0 => { s0 with tcpFastOpen := none })) =
    sockoptNorm ((applySockopt {} c).map (fun s0 => { s0 with tcpFastOpen := none })) := by
  simp only [applySockopt, sockoptNorm, Option.some_orElse, Option.none_orElse]
  split_ifs <;> first | rfl | simp_all

lemma sockErase_mptcp (c : Option BaseConfig) (b : Bool) :
    sockoptNorm ((applySockopt { mptcp := some b } c).map
      (fun s0 => { s0 with tcpMptcp := none })) =
    sockoptNorm ((applySockopt {} c).map (fun s0 => { s0 with tcpMptcp := none })) := by
  simp only [applySockopt, sockoptNorm, Option.some_orElse, Option.none_orElse]
  split_ifs <;> first | rfl | simp_all

lemma sockErase_tka (c : Option BaseConfig) (n : Nat) :
    sockoptNorm ((applySockopt { tcp_keep_alive := some n } c).map
      (fun s0 => { s0 with tcpKeepAliveInterval := none })) =
    sockoptNorm ((applySockopt {} c).map (fun s0 => { s0 with tcpKeepAliveInterval := none })) := by
  simp only [applySockopt, sockoptNorm, Option.some_orElse, Option.none_orElse]
  split_ifs <;> first | rfl | simp_all

lemma sockErase_ds (c : Option BaseConfig) (x : String) :
    sockoptNorm ((applySockopt { domain_strategy := some x } c).map
      (fun s0 => { s0 with domainStrategy := none })) =
    sockoptNorm ((applySockopt {} c).map (fun s0 => { s0 with domainStrategy := none })) := by
  simp only [applySockopt, sockoptNorm, Option.some_orElse, Option.none_orElse]
  split_ifs <;> first | rfl | simp_all

lemma frameS_fraglen (cfg : BaseConfig) (sec tr x : String) :
    eraseParamGroupFieldS "fragment_length" (buildStreamSettings cfg { fragment_length := some x } sec tr) =
    eraseParamGroupFieldS "fragment_length" (buildStreamSettings cfg {} sec tr) := by
  simp only [eraseG_fraglen, buildStreamSettings, mapSockS, StreamSettings.mk.injEq]
  repeat' apply And.intro
  all_goals first
    | trivial
    | exact sockErase_fraglen (some cfg) x

lemma frameS_fragint (cfg : BaseConfig) (sec tr x : String) :
    eraseParamGroupFieldS "fragment_interval" (buildStreamSettings cfg { fragment_interval := some x } sec tr) =
    eraseParamGroupFieldS "fragment_interval" (buildStreamSettings cfg {} sec tr) := by
  simp only [eraseG_fragint, buildStreamSettings, mapSockS, StreamSettings.mk.injEq]
  repeat' apply And.intro
  all_goals first
    | trivial
    | exact sockErase_fragint (some cfg) x

lemma frameS_fragpkt (cfg : BaseConfig) (sec tr x : String) :
    eraseParamGroupFieldS "fragment_packets" (buildStreamSettings cfg { fragment_packets := some x } sec tr) =
    eraseParamGroupFieldS "fragment_packets" (buildStreamSettings cfg {} sec tr) := by
  simp only [eraseG_fragpkt, buildStreamSettings, mapSockS, StreamSettings.mk.injEq]
  repeat' apply And.intro
  all_goals first
    | trivial
    | exact sockErase_fragpkt (some cfg) x

lemma frameS_fp (cfg : BaseConfig) (sec tr x : String) :
    eraseParamGroupFieldS "fingerprint" (buildStreamSettings cfg { fingerprint := some x } sec tr) =
    eraseParamGroupFieldS "fingerprint" (buildStreamSettings cfg {} sec tr) := by
  simp only [eraseG_fp, buildStreamSettings, mapTlsS, mapRealityS, StreamSettings.mk.injEq]
  repeat' apply And.intro
  all_goals first
    | trivial
    | exact congrArg some (secPart_label cfg _ _ sec)
    | exact tlsErase_fp cfg sec x
    | exact realityErase_fp cfg sec x

lemma frameS_alpn (cfg : BaseConfig) (sec tr : String) (xs : List String) :
    eraseParamGroupFieldS "alpn" (buildStreamSettings cfg { alpn := some xs } sec tr) =
    eraseParamGroupFieldS "alpn" (buildStreamSettings cfg {} sec tr) := by
  simp only [eraseG_alpn, buildStreamSettings, mapTlsS, StreamSettings.mk.injEq]
  repeat' apply And.intro
  all_goals first
    | trivial
    | exact congrArg some (secPart_label cfg _ _ sec)
    | exact tlsErase_alpn cfg sec xs
    | exact secPart_reality_eq cfg _ _ sec rfl

lemma frameS_echen (cfg : BaseConfig) (sec tr : String) (b : Bool) :
    eraseParamGroupFieldS "ech_enabled" (buildStreamSettings cfg { ech_enabled := some b } sec tr) =
    eraseParamGroupFieldS "ech_enabled" (buildStreamSettings cfg {} sec tr) := by
  simp only [eraseG_echen, buildStreamSettings, mapTlsS, StreamSettings.mk.injEq]
  repeat' apply And.intro
  all_goals first
    | trivial
    | exact congrArg some (secPart_label cfg _ _ sec)
    | exact tlsErase_echen cfg sec b
    | exact secPart_reality_eq cfg _ _ sec rfl

lemma frameS_echdns (cfg : BaseConfig) (sec tr : String) (b : Bool) :
    eraseParamGroupFieldS "ech_dns" (buildStreamSettings cfg { ech_dns := some b } sec tr) =
    eraseParamGroupFieldS "ech_dns" (buildStreamSettings cfg {} sec tr) := by
  simp only [eraseG_echdns, buildStreamSettings, mapTlsS, StreamSettings.mk.injEq]
  repeat' apply And.intro
  all_goals first
    | trivial
    | exact congrArg some (secPart_label cfg _ _ sec)
    | exact congrArg (Option.map _) (tls_echdns cfg sec b)
    | exact secPart_reality_eq cfg _ _ sec rfl

lemma frameS_tnd (cfg : BaseConfig) (sec tr : String) (b : Bool) :
    eraseParamGroupFieldS "tcp_no_delay" (buildStreamSettings cfg { tcp_no_delay := some b } sec tr) =
    eraseParamGroupFieldS "tcp_no_delay" (buildStreamSettings cfg {} sec tr) := by
  simp only [eraseG_tnd, buildStreamSettings, mapSockS, StreamSettings.mk.injEq]
  repeat' apply And.intro
  all_goals first
    | trivial
    | exact sockErase_tnd (some cfg) b

lemma frameS_tfo (cfg : BaseConfig) (sec tr : String) (b : Bool) :
    eraseParamGroupFieldS "tcp_fast_open" (buildStreamSettings cfg { tcp_fast_open := some b } sec tr) =
    eraseParamGroupFieldS "tcp_fast_open" (buildStreamSettings cfg {} sec tr) := by
  simp only [eraseG_tfo, buildStreamSettings, mapSockS, StreamSettings.mk.injEq]
  repeat' apply And.intro
  all_goals first
    | trivial
    | exact sockErase_tfo (some cfg) b

lemma frameS_mptcp (cfg : BaseConfig) (sec tr : String) (b : Bool) :
    eraseParamGroupFieldS "mptcp" (buildStreamSettings cfg { mptcp := some b } sec tr) =
    eraseParamGroupFieldS "mptcp" (buildStreamSettings cfg {} sec tr) := by
  simp only [eraseG_mptcp, buildStreamSettings, mapSockS, StreamSettings.mk.injEq]
  repeat' apply And.intro
  all_goals first
    | trivial
    | exact sockErase_mptcp (some cfg) b

lemma frameS_tka (cfg : BaseConfig) (sec tr : String) (n : Nat) :
    eraseParamGroupFieldS "tcp_keep_alive" (buildStreamSettings cfg { tcp_keep_alive := some n } sec tr) =
    eraseParamGroupFieldS "tcp_keep_alive" (buildStreamSettings cfg {} sec tr) := by
  simp only [eraseG_tka, buildStreamSettings, mapSockS, StreamSettings.mk.injEq]
  repeat' apply And.intro
  all_goals first
    | trivial
    | exact sockErase_tka (some cfg) n

lemma frameS_ds (cfg : BaseConfig) (sec tr x : String) :
    eraseParamGroupFieldS "domain_strategy" (buildStreamSettings cfg { domain_strategy := some x } sec tr) =
    eraseParamGroupFieldS "domain_strategy" (buildStreamSettings cfg {} sec tr) := by
  simp only [eraseG_ds, buildStreamSettings, mapSockS, StreamSettings.mk.injEq]
  repeat' apply And.intro
  all_goals first
    | trivial
    | exact sockErase_ds (some cfg) x

lemma frameS_transport (cfg : BaseConfig) (sec t1 t2 x : String) :
    eraseParamGroupFieldS "transport" (buildStreamSettings cfg { transport := some x } sec t1) =
    eraseParamGroupFieldS "transport" (buildStreamSettings cfg {} sec t2) := rfl

lemma frameS_xhm (cfg : BaseConfig) (sec tr x : String) :
    eraseParamGroupFieldS "xhttp_mode" (buildStreamSettings cfg { xhttp_mode := some x } sec tr) =
    eraseParamGroupFieldS "xhttp_mode" (buildStreamSettings cfg {} sec tr) := by
  simp only [eraseG_xhm, buildStreamSettings, mapXhttpS, StreamSettings.mk.injEq]
  repeat' apply And.intro
  all_goals first
    | trivial
    | exact xhttpErase_mode cfg tr x

lemma frameSS_fraglen (x : String) :
    eraseParamGroupFieldS "fragment_length" (ssStream { fragment_length := some x }) =
    eraseParamGroupFieldS "fragment_length" (ssStream {}) := by
  simp only [ssStream, eraseG_fraglen, mapSockS, StreamSettings.mk.injEq]
  repeat' apply And.intro
  all_goals first | trivial | exact sockErase_fraglen none x

lemma frameSS_fragint (x : String) :
    eraseParamGroupFieldS "fragment_interval" (ssStream { fragment_interval := some x }) =
    eraseParamGroupFieldS "fragment_interval" (ssStream {}) := by
  simp only [ssStream, eraseG_fragint, mapSockS, StreamSettings.mk.injEq]
  repeat' apply And.intro
  all_goals first | trivial | exact sockErase_fragint none x

lemma frameSS_fragpkt (x : String) :
    eraseParamGroupFieldS "fragment_packets" (ssStream { fragment_packets := some x }) =
    eraseParamGroupFieldS "fragment_packets" (ssStream {}) := by
  simp only [ssStream, eraseG_fragpkt, mapSockS, StreamSettings.mk.injEq]
  repeat' apply And.intro
  all_goals first | trivial | exact sockErase_fragpkt none x

lemma frameSS_tnd (b : Bool) :
    eraseParamGroupFieldS "tcp_no_delay" (ssStream { tcp_no_delay := some b }) =
    eraseParamGroupFieldS "tcp_no_delay" (ssStream {}) := by
  simp only [ssStream, eraseG_tnd, mapSockS, StreamSettings.mk.injEq]
  repeat' apply And.intro
  all_goals first | trivial | exact sockErase_tnd none b

lemma frameSS_tfo (b : Bool) :
    eraseParamGroupFieldS "tcp_fast_open" (ssStream { tcp_fast_open := some b }) =
    eraseParamGroupFieldS "tcp_fast_open" (ssStream {}) := by
  simp only [ssStream, eraseG_tfo, mapSockS, StreamSettings.mk.injEq]
  repeat' apply And.intro
  all_goals first | trivial | exact sockErase_tfo none b

lemma frameSS_mptcp (b : Bool) :
    eraseParamGroupFieldS "mptcp" (ssStream { mptcp := some b }) =
    eraseParamGroupFieldS "mptcp" (ssStream {}) := by
  simp only [ssStream, eraseG_mptcp, mapSockS, StreamSettings.mk.injEq]
  repeat' apply And.intro
  all_goals first | trivial | exact sockErase_mptcp none b

lemma frameSS_tka (n : Nat) :
    eraseParamGroupFieldS "tcp_keep_alive" (ssStream { tcp_keep_alive := some n }) =
    eraseParamGroupFieldS "tcp_keep_alive" (ssStream {}) := by
  simp only [ssStream, eraseG_tka, mapSockS, StreamSettings.mk.injEq]
  repeat' apply And.intro
  all_goals first | trivial | exact sockErase_tka none n

lemma frameSS_ds (x : String) :
    eraseParamGroupFieldS "domain_strategy" (ssStream { domain_strategy := some x }) =
    eraseParamGroupFieldS "domain_strategy" (ssStream {}) := by
  simp only [ssStream, eraseG_ds, mapSockS, StreamSettings.mk.injEq]
  repeat' apply And.intro
  all_goals first | trivial | exact sockErase_ds none x

lemma frameD_fraglen (cfg : BaseConfig) (port : Nat) (x : String) :
    (build_xray_json cfg { fragment_length := some x } port).map (eraseParamGroupField "fragment_length") =
    (build_xray_json cfg {} port).map (eraseParamGroupField "fragment_length") := by
  unfold build_xray_json
  split_ifs <;>
    simp only [Except.map, eraseParamGroupField, buildVlessOutbound, buildVmessOutbound,
      buildTrojanOutbound, buildShadowsocksOutbound, XrayDoc.mk.injEq, Except.ok.injEq]
  all_goals repeat' apply And.intro
  all_goals first
    | trivial
    | exact frameS_fraglen cfg _ _ x
    | exact frameSS_fraglen x

lemma frameD_fragint (cfg : BaseConfig) (port : Nat) (x : String) :
    (build_xray_json cfg { fragment_interval := some x } port).map (eraseParamGroupField "fragment_interval") =
    (build_xray_json cfg {} port).map (eraseParamGroupField "fragment_interval") := by
  unfold build_xray_json
  split_ifs <;>
    simp only [Except.map, eraseParamGroupField, buildVlessOutbound, buildVmessOutbound,
      buildTrojanOutbound, buildShadowsocksOutbound, XrayDoc.mk.injEq, Except.ok.injEq]
  all_goals repeat' apply And.intro
  all_goals first
    | trivial
    | exact frameS_fragint cfg _ _ x
    | exact frameSS_fragint x

lemma frameD_fragpkt (cfg : BaseConfig) (port : Nat) (x : String) :
    (build_xray_json cfg { fragment_packets := some x } port).map (eraseParamGroupField "fragment_packets") =
    (build_xray_json cfg {} port).map (eraseParamGroupField "fragment_packets") := by
  unfold build_xray_json
  split_ifs <;>
    simp only [Except.map, eraseParamGroupField, buildVlessOutbound, buildVmessOutbound,
      buildTrojanOutbound, buildShadowsocksOutbound, XrayDoc.mk.injEq, Except.ok.injEq]
  all_goals repeat' apply And.intro
  all_goals first
    | trivial
    | exact frameS_fragpkt cfg _ _ x
    | exact frameSS_fragpkt x

lemma frameD_fp (cfg : BaseConfig) (port : Nat) (x : String) :
    (build_xray_json cfg { fingerprint := some x } port).map (eraseParamGroupField "fingerprint") =
    (build_xray_json cfg {} port).map (eraseParamGroupField "fingerprint") := by
  unfold build_xray_json
  split_ifs <;>
    simp only [Except.map, eraseParamGroupField, buildVlessOutbound, buildVmessOutbound,
      buildTrojanOutbound, buildShadowsocksOutbound, XrayDoc.mk.injEq, Except.ok.injEq]
  all_goals repeat' apply And.intro
  all_goals first
    | trivial
    | exact frameS_fp cfg _ _ x

lemma frameD_alpn (cfg : BaseConfig) (port : Nat) (xs : List String) :
    (build_xray_json cfg { alpn := some xs } port).map (eraseParamGroupField "alpn") =
    (build_xray_json cfg {} port).map (eraseParamGroupField "alpn") := by
  unfold build_xray_json
  split_ifs <;>
    simp only [Except.map, eraseParamGroupField, buildVlessOutbound, buildVmessOutbound,
      buildTrojanOutbound, buildShadowsocksOutbound, XrayDoc.mk.injEq, Except.ok.injEq]
  all_goals repeat' apply And.intro
  all_goals first
    | trivial
    | exact frameS_alpn cfg _ _ xs

lemma frameD_echen (cfg : BaseConfig) (port : Nat) (b : Bool) :
    (build_xray_json cfg { ech_enabled := some b } port).map (eraseParamGroupField "ech_enabled") =
    (build_xray_json cfg {} port).map (eraseParamGroupField "ech_enabled") := by
  unfold build_xray_json
  split_ifs <;>
    simp only [Except.map, eraseParamGroupField, buildVlessOutbound, buildVmessOutbound,
      buildTrojanOutbound, buildShadowsocksOutbound, XrayDoc.mk.injEq, Except.ok.injEq]
  all_goals repeat' apply And.intro
  all_goals first
    | trivial
    | exact frameS_echen cfg _ _ b

lemma frameD_echdns (cfg : BaseConfig) (port : Nat) (b : Bool) :
    (build_xray_json cfg { ech_dns := some b } port).map (eraseParamGroupField "ech_dns") =
    (build_xray_json cfg {} port).map (eraseParamGroupField "ech_dns") := by
  unfold build_xray_json
  split_ifs <;>
    simp only [Except.map, eraseParamGroupField, buildVlessOutbound, buildVmessOutbound,
      buildTrojanOutbound, buildShadowsocksOutbound, XrayDoc.mk.injEq, Except.ok.injEq]
  all_goals repeat' apply And.intro
  all_goals first
    | trivial
    | exact frameS_echdns cfg _ _ b

lemma frameD_tnd (cfg : BaseConfig) (port : Nat) (b : Bool) :
    (build_xray_json cfg { tcp_no_delay := some b } port).map (eraseParamGroupField "tcp_no_delay") =
    (build_xray_json cfg {} port).map (eraseParamGroupField "tcp_no_delay") := by
  unfold build_xray_json
  split_ifs <;>
    simp only [Except.map, eraseParamGroupField, buildVlessOutbound, buildVmessOutbound,
      buildTrojanOutbound, buildShadowsocksOutbound, XrayDoc.mk.injEq, Except.ok.injEq]
  all_goals repeat' apply And.intro
  all_goals first
    | trivial
    | exact frameS_tnd cfg _ _ b
    | exact frameSS_tnd b

lemma frameD_tfo (cfg : BaseConfig) (port : Nat) (b : Bool) :
    (build_xray_json cfg { tcp_fast_open := some b } port).map (eraseParamGroupField "tcp_fast_open") =
    (build_xray_json cfg {} port).map (eraseParamGroupField "tcp_fast_open") := by
  unfold build_xray_json
  split_ifs <;>
    simp only [Except.map, eraseParamGroupField, buildVlessOutbound, buildVmessOutbound,
      buildTrojanOutbound, buildShadowsocksOutbound, XrayDoc.mk.injEq, Except.ok.injEq]
  all_goals repeat' apply And.intro
  all_goals first
    | trivial
    | exact frameS_tfo cfg _ _ b
    | exact frameSS_tfo b

lemma frameD_mptcp (cfg : BaseConfig) (port : Nat) (b : Bool) :
    (build_xray_json cfg { mptcp := some b } port).map (eraseParamGroupField "mptcp") =
    (build_xray_json cfg {} port).map (eraseParamGroupField "mptcp") := by
  unfold build_xray_json
  split_ifs <;>
    simp only [Except.map, eraseParamGroupField, buildVlessOutbound, buildVmessOutbound,
      buildTrojanOutbound, buildShadowsocksOutbound, XrayDoc.mk.injEq, Except.ok.injEq]
  all_goals repeat' apply And.intro
  all_goals first
    | trivial
    | exact frameS_mptcp cfg _ _ b
    | exact frameSS_mptcp b

lemma frameD_tka (cfg : BaseConfig) (port : Nat) (n : Nat) :
    (build_xray_json cfg { tcp_keep_alive := some n } port).map (eraseParamGroupField "tcp_keep_alive") =
    (build_xray_json cfg {} port).map (eraseParamGroupField "tcp_keep_alive") := by
  unfold build_xray_json
  split_ifs <;>
    simp only [Except.map, eraseParamGroupField, buildVlessOutbound, buildVmessOutbound,
      buildTrojanOutbound, buildShadowsocksOutbound, XrayDoc.mk.injEq, Except.ok.injEq]
  all_goals repeat' apply And.intro
  all_goals first
    | trivial
    | exact frameS_tka cfg _ _ n
    | exact frameSS_tka n

lemma frameD_ds (cfg : BaseConfig) (port : Nat) (x : String) :
    (build_xray_json cfg { domain_strategy := some x } port).map (eraseParamGroupField "domain_strategy") =
    (build_xray_json cfg {} port).map (eraseParamGroupField "domain_strategy") := by
  unfold build_xray_json
  split_ifs <;>
    simp only [Except.map, eraseParamGroupField, buildVlessOutbound, buildVmessOutbound,
      buildTrojanOutbound, buildShadowsocksOutbound, XrayDoc.mk.injEq, Except.ok.injEq]
  all_goals repeat' apply And.intro
  all_goals first
    | trivial
    | exact frameS_ds cfg _ _ x
    | exact frameSS_ds x

lemma frameD_transport (cfg : BaseConfig) (port : Nat) (x : String) :
    (build_xray_json cfg { transport := some x } port).map (eraseParamGroupField "transport") =
    (build_xray_json cfg {} port).map (eraseParamGroupField "transport") := by
  unfold build_xray_json
  split_ifs <;>
    simp only [Except.map, eraseParamGroupField, buildVlessOutbound, buildVmessOutbound,
      buildTrojanOutbound, buildShadowsocksOutbound, XrayDoc.mk.injEq, Except.ok.injEq]
  all_goals repeat' apply And.intro
  all_goals first
    | trivial
    | exact frameS_transport cfg _ _ _ x

lemma frameD_xhm (cfg : BaseConfig) (port : Nat) (x : String) :
    (build_xray_json cfg { xhttp_mode := some x } port).map (eraseParamGroupField "xhttp_mode") =
    (build_xray_json cfg {} port).map (eraseParamGroupField "xhttp_mode") := by
  unfold build_xray_json
  split_ifs <;>
    simp only [Except.map, eraseParamGroupField, buildVlessOutbound, buildVmessOutbound,
      buildTrojanOutbound, buildShadowsocksOutbound, XrayDoc.mk.injEq, Except.ok.injEq]
  all_goals repeat' apply And.intro
  all_goals first
    | trivial
    | exact frameS_xhm cfg _ _ x

lemma paramDomain_mem_keys {k : String} {v : PVal} (hv : v ∈ paramDomain k) :
    k ∈ ["fragment_length", "fragment_interval", "fragment_packets", "fingerprint", "alpn",
         "ech_enabled", "ech_dns", "tcp_no_delay", "tcp_fast_open", "mptcp",
         "tcp_keep_alive", "domain_strategy", "transport", "xhttp_mode"] := by
  by_contra hk
  have hnone : psFind k = none := by
    unfold psFind
    cases hfind : PARAM_SPACE.find? (fun p => p.1 = k) with
    | none => rfl
    | some p =>
      exfalso
      have hp : p ∈ PARAM_SPACE := List.mem_of_find?_eq_some hfind
      have heq : p.1 = k := by simpa using List.find?_some hfind
      have h1 : p.1 ∈ PARAM_SPACE.map Prod.fst := List.mem_map_of_mem _ hp
      rw [heq] at h1
      exact hk (by simpa [PARAM_SPACE] using h1)
  rw [paramDomain, hnone] at hv
  simp at hv

/-- C4 (amended): for every BaseConfig, port and singleton override
{K: V} with V in the declared domain of K, the generated document differs
from the baseline document only in the field group controlled by K — the
whole `sockopt.fragment` triple for a fragment key, the whole `ech` object
for `ech_enabled`, the `network` field plus the transport-settings
sections for `transport`, and exactly the single field corresponding to K
for every other key — and in nothing else (the inbound port, built from
the same port argument, is equal as well): erasing that field group makes
the two documents equal. -/
theorem single_override_frame (cfg : BaseConfig) (port : Nat) (k : String) (v : PVal)
    (hv : v ∈ paramDomain k) :
    (build_xray_json cfg (mkSingle k v) port).map (eraseParamGroupField k) =
    (build_xray_json cfg {} port).map (eraseParamGroupField k) := by
  have hk := paramDomain_mem_keys hv
  simp only [List.mem_cons, List.not_mem_nil, or_false] at hk
  rcases hk with rfl|rfl|rfl|rfl|rfl|rfl|rfl|rfl|rfl|rfl|rfl|rfl|rfl|rfl
  · rcases v with x|x|x|x
    · exact frameD_fraglen cfg port x
    · rfl
    · rfl
    · rfl
  · rcases v with x|x|x|x
    · exact frameD_fragint cfg port x
    · rfl
    · rfl
    · rfl
  · rcases v with x|x|x|x
    · exact frameD_fragpkt cfg port x
    · rfl
    · rfl
    · rfl
  · rcases v with x|x|x|x
    · exact frameD_fp cfg port x
    · rfl
    · rfl
    · rfl
  · rcases v with x|x|x|x
    · rfl
    · rfl
    · rfl
    · exact frameD_alpn cfg port x
  · rcases v with x|x|x|x
    · rfl
    · exact frameD_echen cfg port x
    · rfl
    · rfl
  · rcases v with x|x|x|x
    · rfl
    · exact frameD_echdns cfg port x
    · rfl
    · rfl
  · rcases v with x|x|x|x
    · rfl
    · exact frameD_tnd cfg port x
    · rfl
    · rfl
  · rcases v with x|x|x|x
    · rfl
    · exact frameD_tfo cfg port x
    · rfl
    · rfl
  · rcases v with x|x|x|x
    · rfl
    · exact frameD_mptcp cfg port x
    · rfl
    · rfl
  · rcases v with x|x|x|x
    · rfl
    · rfl
    · exact frameD_tka cfg port x
    · rfl
  · rcases v with x|x|x|x
    · exact frameD_ds cfg port x
    · rfl
    · rfl
    · rfl
  · rcases v with x|x|x|x
    · exact frameD_transport cfg port x
    · rfl
    · rfl
    · rfl
  · rcases v with x|x|x|x
    · exact frameD_xhm cfg port x
    · rfl
    · rfl
    · rfl

/-- C4 (counterexample): the claim as stated — the two documents differ
only in the single field corresponding to K — fails at the concrete input
cfg = sampleVlessTls, K = fragment_length, V = "1-1": the variant document
also gains the `sockopt.fragment.packets` and `sockopt.fragment.interval`
fields (compiled defaults "tlshello" / "10-20") that the baseline document
does not have, so erasing the length field alone does not make the
documents equal. -/
theorem single_override_frame_cex : ¬ singleFieldFrameClaim := by
  intro h
  have h2 := h sampleVlessTls 10808 "fragment_length" (.s "1-1") (by decide)
  have h3 := congrArg (fun e => e.map (fun d => d.stream.sockopt)) h2
  have h4 : ((build_xray_json sampleVlessTls (mkSingle "fragment_length" (.s "1-1")) 10808).map
      (eraseParamField "fragment_length")).map (fun d => d.stream.sockopt) =
      .ok (some { fragment := some { packets := "tlshello", length := "", interval := "10-20" } }) := rfl
  have h5 : ((build_xray_json sampleVlessTls {} 10808).map
      (eraseParamField "fragment_length")).map (fun d => d.stream.sockopt) = .ok none := rfl
  have h6 := (h4.symm.trans h3).trans h5
  simp at h6

/-- C4 (witness): the amended frame theorem applied at the concrete input
cfg = sampleVlessTls, K = fingerprint, V = "chrome". -/
theorem single_override_frame_witness :
    (PVal.s "chrome") ∈ paramDomain "fingerprint" ∧
    (build_xray_json sampleVlessTls (mkSingle "fingerprint" (.s "chrome")) 10808).map
        (eraseParamGroupField "fingerprint") =
      (build_xray_json sampleVlessTls {} 10808).map (eraseParamGroupField "fingerprint") :=
  ⟨by decide, single_override_frame sampleVlessTls 10808 "fingerprint" (.s "chrome") (by decide)⟩

/-- C10: for every BaseConfig with standard TLS security and every port,
the document built from the singleton override {ech_dns: v} (either
boolean v) and the document built from {ech_enabled: False} are each
identical to the baseline document: the encrypted-hello block is emitted
only when ech_enabled is truthy in the overrides, so these sweep cases
probe exactly the baseline document. -/
theorem ech_sweep_noop (cfg : BaseConfig) (port : Nat) (v : Bool)
    (hsec : effSecurity cfg = "tls") :
    build_xray_json cfg { ech_dns := some v } port = build_xray_json cfg {} port ∧
    build_xray_json cfg { ech_enabled := some false } port = build_xray_json cfg {} port :=
  ⟨rfl, rfl⟩

/-- C10 (witness): the no-op equalities at the concrete TLS vless
descriptor. -/
theorem ech_sweep_noop_witness :
    effSecurity sampleVlessTls = "tls" ∧
    (build_xray_json sampleVlessTls { ech_dns := some true } 10808 =
        build_xray_json sampleVlessTls {} 10808 ∧
      build_xray_json sampleVlessTls { ech_enabled := some false } 10808 =
        build_xray_json sampleVlessTls {} 10808) :=
  ⟨rfl, ech_sweep_noop sampleVlessTls 10808 true rfl⟩

/-- C9: starting from a fresh counter, the k-th port allocation returns
BASE_PORT + (k mod 10000) (monotonic counter mod pool size 10000 over
base 20000); in particular 15 sequential allocations return the ports
20000..20014 in order with no repeats. -/
theorem port_allocator_sequence :
    (∀ c n, allocPorts c n = (List.range n).map (fun k => BASE_PORT + (c + k) % 10000)) ∧
    allocPorts 0 15 = [20000, 20001, 20002, 20003, 20004, 20005, 20006, 20007, 20008, 20009,
      20010, 20011, 20012, 20013, 20014] ∧
    (allocPorts 0 15).Nodup := by
  have hgen : ∀ n c, allocPorts c n = (List.range n).map (fun k => BASE_PORT + (c + k) % 10000) := by
    intro n
    induction n with
    | zero => intro c; rfl
    | succ m ih =>
      intro c
      have h1 : allocPorts c (m + 1) = (BASE_PORT + c % 10000) :: allocPorts (c + 1) m := rfl
      rw [h1, ih (c + 1), List.range_succ_eq_map, List.map_cons, List.map_map]
      refine congrArg₂ List.cons (by simp) ?_
      apply List.map_congr_left
      intro a _
      simp only [Function.comp, Nat.succ_eq_add_one]
      omega
  exact ⟨fun c n => hgen n c, by decide, by decide⟩

/-- C6: for every probe outcome, the returned ProbeResult satisfies
success = true iff latency_ms is non-negative, and success = false iff
latency_ms is the -1 sentinel. -/
theorem probe_result_success_latency (params : Overrides) (desc : String)
    (env : ProbeEnv) (ms : Bool) :
    ((test_single params desc env ms).success = true ↔
      0 ≤ (test_single params desc env ms).latency_ms) ∧
    ((test_single params desc env ms).success = false ↔
      (test_single params desc env ms).latency_ms = -1) := by
  rcases env with ⟨e, conn, sp⟩
  cases e <;> cases conn <;>
    simp only [test_single] <;>
    (repeat' split) <;>
    simp_all <;>
    omega

/-- C7: building a document succeeds exactly for the four recognized
protocol variants; for any other variant the builder raises a hard error
(modelled as Except.error), and the smart-search run then fails while
building its baseline and sweep documents, before any probe exists —
the unknown variant is never turned into a probe-level result. -/
theorem build_unknown_protocol_hard_error (cfg : BaseConfig) (ov : Overrides) (port : Nat) :
    ((build_xray_json cfg ov port).isOk = true ↔ cfg.protocol ∈ recognizedProtocols) ∧
    (cfg.protocol ∉ recognizedProtocols →
      ∀ groups, smartPhase12Docs cfg groups =
        .error ("Unsupported protocol: " ++ cfg.protocol)) := by
  constructor
  · unfold build_xray_json
    split_ifs with h1 h2 h3 h4 <;>
      simp [recognizedProtocols, Except.isOk, Except.toBool, h1, *]
  · intro hnot groups
    have hb : build_xray_json cfg {} 10808 =
        .error ("Unsupported protocol: " ++ cfg.protocol) := by
      unfold build_xray_json
      split_ifs with h1 h2 h3 h4
      · exact absurd (by simp [recognizedProtocols, h1]) hnot
      · exact absurd (by simp [recognizedProtocols, h2]) hnot
      · exact absurd (by simp [recognizedProtocols, h3]) hnot
      · exact absurd (by simp [recognizedProtocols, h4]) hnot
      · rfl
    simp only [smartPhase12Docs, hb]
    rfl

/-- C7 (witness): the unrecognized variant "socks5" makes the builder
error and the smart-search document plan abort, while the recognized
vless sample builds successfully. -/
theorem build_unknown_protocol_hard_error_witness :
    ((build_xray_json sampleUnknownProto {} 10808).isOk = true ↔
      sampleUnknownProto.protocol ∈ recognizedProtocols) ∧
    smartPhase12Docs sampleUnknownProto ["fingerprint"] =
      .error ("Unsupported protocol: " ++ sampleUnknownProto.protocol) ∧
    (build_xray_json sampleVlessTls {} 10808).isOk = true :=
  ⟨(build_unknown_protocol_hard_error sampleUnknownProto {} 10808).1,
   (build_unknown_protocol_hard_error sampleUnknownProto {} 10808).2 (by decide) ["fingerprint"],
   ((build_unknown_protocol_hard_error sampleVlessTls {} 10808).1).mpr (by decide)⟩

/-- C8: for every list of N planned probes, every per-probe environment
and every completion order (an arbitrary permutation of the task
indices — the semaphore only bounds how many probes are in flight), the
batch returns exactly N ProbeResults, and every probe — including every
failing one — contributes its ordinary result to the returned list;
no outcome aborts the batch or suppresses a sibling's result. -/
theorem run_batch_complete (tests : List (Overrides × String)) (env : Nat → ProbeEnv)
    (ms : Bool) (order : List Nat) (hperm : order.Perm (List.range tests.length)) :
    (run_batch tests env ms order).length = tests.length ∧
    ∀ i (hi : i < tests.length),
      test_single (tests.get ⟨i, hi⟩).1 (tests.get ⟨i, hi⟩).2 (env i) ms ∈
        run_batch tests env ms order := by
  have hmem : ∀ j ∈ order, j < tests.length := by
    intro j hj
    have := hperm.mem_iff.mp hj
    simpa [List.mem_range] using this
  constructor
  · have hlen : ∀ (l : List Nat), (∀ j ∈ l, j < tests.length) →
        (l.filterMap (fun i =>
          (tests[i]?).map (fun t => test_single t.1 t.2 (env i) ms))).length = l.length := by
      intro l
      induction l with
      | nil => intro _; rfl
      | cons a as ih =>
        intro hl
        have ha : a < tests.length := hl a (List.mem_cons_self a as)
        have hget : tests[a]? = some tests[a] := List.getElem?_eq_getElem ha
        simp only [List.filterMap_cons, hget, Option.map_some]
        simp [ih (fun j hj => hl j (List.mem_cons_of_mem _ hj))]
    have h1 := hlen order hmem
    rw [run_batch] at *
    rw [h1, hperm.length_eq, List.length_range]
  · intro i hi
    have hio : i ∈ order := hperm.mem_iff.mpr (by simpa [List.mem_range] using hi)
    refine List.mem_filterMap.mpr ⟨i, hio, ?_⟩
    rw [List.getElem?_eq_getElem hi]
    rfl

/-- C8 (witness): a two-probe batch completed in the order [1, 0], where
every probe fails by timeout, still returns both results, and the first
probe's failure result is in the returned list. -/
theorem run_batch_complete_witness :
    (run_batch [({}, "baseline (no changes)"), ({ fingerprint := some "chrome" }, "fingerprint=chrome")]
        (fun _ => {}) false [1, 0]).length = 2 ∧
    test_single (([({}, "baseline (no changes)"),
        ({ fingerprint := some "chrome" }, "fingerprint=chrome")] :
          List (Overrides × String)).get ⟨0, by decide⟩).1
      (([({}, "baseline (no changes)"),
        ({ fingerprint := some "chrome" }, "fingerprint=chrome")] :
          List (Overrides × String)).get ⟨0, by decide⟩).2
      ((fun _ => ({} : ProbeEnv)) 0) false ∈
      run_batch [({}, "baseline (no changes)"), ({ fingerprint := some "chrome" }, "fingerprint=chrome")]
        (fun _ => {}) false [1, 0] :=
  ⟨(run_batch_complete [({}, "baseline (no changes)"), ({ fingerprint := some "chrome" }, "fingerprint=chrome")]
      (fun _ => {}) false [1, 0] (by decide)).1,
   (run_batch_complete [({}, "baseline (no changes)"), ({ fingerprint := some "chrome" }, "fingerprint=chrome")]
      (fun _ => {}) false [1, 0] (by decide)).2 0 (by decide)⟩

lemma ovUpdate_empty (d : Overrides) : ovUpdate {} d = d := by
  simp [ovUpdate, Option.orElse_none]

lemma flatMap_singleton_map {α β : Type} (l : List α) (f : α → β) :
    l.flatMap (fun x => [f x]) = l.map f := by
  induction l <;> simp_all

lemma listProd_single {α : Type} (xs : List α) :
    listProd [xs] = xs.map (fun x => [x]) := by
  simp only [listProd]
  exact flatMap_singleton_map xs (fun x => [x])

/-- C1 (amended): `generate_combination_grid` with winners in exactly one
group does not return empty — it returns that group's top-min(top_n, size)
winning override sets, one single-group combination each; the emptiness
the spec describes is enforced one level up: `smart_search` runs the
combination phase only when more than one group has winners, so with one
group the combination phase contributes no test cases. -/
theorem combination_grid_single_group (g : String) (rs : List (Overrides × Int)) (n : Nat) :
    generate_combination_grid [(g, rs)] n =
      (rs.take n).map (fun r =>
        (r.1, String.intercalate " + " ((ovItems r.1).map (fun p => p.1 ++ "=" ++ p.2)))) ∧
    smartCombineCases [(g, rs)] = [] := by
  constructor
  · simp only [generate_combination_grid, List.map_cons, List.map_nil, List.isEmpty_cons,
      Bool.false_eq_true, if_false, listProd_single, List.map_map]
    apply List.map_congr_left
    intro r _
    simp [ovUpdate_empty]
  · simp [smartCombineCases]

/-- C1 (counterexample): a winners mapping with entries for exactly one
dimension group on which `generate_combination_grid` returns a non-empty
list, refuting the claim that it returns the empty list of test cases. -/
theorem combination_grid_single_group_cex :
    generate_combination_grid [("fingerprint", [({ fingerprint := some "chrome" }, 50)])] 3 ≠ [] := by
  intro h
  have h1 : (generate_combination_grid
      [("fingerprint", [({ fingerprint := some "chrome" }, 50)])] 3).length = 1 := rfl
  rw [h] at h1
  exact absurd h1 (by decide)

lemma sweepForKey_length (k : String) :
    (sweepForKey k).length = (paramDomain k).length := by
  unfold sweepForKey paramDomain
  cases psFind k <;> simp

lemma keys_flatMap_length (ks : List String) :
    (ks.flatMap sweepForKey).length = (ks.map (fun k => (paramDomain k).length)).sum := by
  induction ks <;> simp_all [sweepForKey_length]

lemma groups_flatMap_length (gs : List String) :
    (gs.flatMap (fun g => (groupKeys g).flatMap sweepForKey)).length =
      (gs.map groupSweepLen).sum := by
  induction gs with
  | nil => rfl
  | cons g gs ih =>
    simp only [List.flatMap_cons, List.length_append, keys_flatMap_length, ih, List.map_cons,
      List.sum_cons, groupSweepLen]

/-- C2 (amended): for every config and list of requested groups, the sweep
generator emits the baseline entry first and then exactly one singleton
OverrideSet per (key, value) pair of the requested groups' member
dimensions, so its total count is 1 + Σ|value-domain| — the baseline IS
included by `generate_smart_grid` (the orchestrator filters it out before
probing); in particular generate_smart_grid(config, ["fingerprint"]) emits
9 entries: the baseline plus 8 fingerprint singletons. -/
theorem smart_grid_shape (cfg : BaseConfig) (groups : List String) :
    (generate_smart_grid cfg groups).length = 1 + (groups.map groupSweepLen).sum ∧
    (generate_smart_grid cfg groups).head? = some ({}, "baseline (no changes)") ∧
    (∀ t ∈ (generate_smart_grid cfg groups).tail, ∃ k v, v ∈ paramDomain k ∧ t.1 = mkSingle k v) ∧
    (generate_smart_grid cfg ["fingerprint"]).length = 9 := by
  refine ⟨?_, rfl, ?_, rfl⟩
  · simp only [generate_smart_grid, List.length_cons, groups_flatMap_length]
    omega
  · intro t ht
    simp only [generate_smart_grid, List.tail_cons] at ht
    rcases List.mem_flatMap.mp ht with ⟨g, _, ht2⟩
    rcases List.mem_flatMap.mp ht2 with ⟨k, _, ht3⟩
    refine ⟨k, ?_⟩
    unfold sweepForKey at ht3
    cases hpd : psFind k with
    | none => rw [hpd] at ht3; simp at ht3
    | some dom =>
      rw [hpd] at ht3
      rcases List.mem_map.mp ht3 with ⟨v, hv, hteq⟩
      exact ⟨v, by simp [paramDomain, hpd, hv], by rw [← hteq]⟩

/-- C2 (witness): the singleton-shape clause of the amended theorem
applied to the first sweep entry of the fingerprint sweep. -/
theorem smart_grid_shape_witness :
    ∃ k v, v ∈ paramDomain k ∧
      ((({ fingerprint := some "chrome" } : Overrides), "fingerprint=chrome") :
        Overrides × String).1 = mkSingle k v :=
  (smart_grid_shape sampleVlessTls ["fingerprint"]).2.2.1
    ({ fingerprint := some "chrome" }, "fingerprint=chrome") (List.mem_cons_self _ _)

/-- C2 (counterexample): generate_smart_grid(config, ["fingerprint"]) does
not emit 8 override sets, and the baseline OverrideSet IS included in its
output, refuting both the claimed count and the claimed baseline
exclusion. -/
theorem smart_grid_shape_cex :
    ¬ ((generate_smart_grid sampleVlessTls ["fingerprint"]).length = 8) ∧
    ({}, "baseline (no changes)") ∈ generate_smart_grid sampleVlessTls ["fingerprint"] := by
  constructor
  · intro h
    have h9 : (generate_smart_grid sampleVlessTls ["fingerprint"]).length = 9 := rfl
    exact absurd (h9.symm.trans h) (by decide)
  · exact List.mem_cons_self _ _

/-- C3 (code bug): the sweep cases generated for quick_search's group list
["fragment", "fingerprint", "alpn"] contain no override touching any
fragmentation dimension — the group name "fragment" matches neither
PARAM_GROUPS nor PARAM_SPACE, so quick mode sweeps only fingerprint and
alpn (12 = 1 baseline + 8 + 3 entries) — whereas the generator the source
declares for quick mode (generate_quick_grid over QUICK_PARAMS) contains
all 15 fragmentation singletons (6 lengths + 5 intervals + 4 packet
policies). -/
theorem quick_search_fragment_gap :
    ((generate_smart_grid sampleVlessTls quickSearchGroups).filter
      (fun t => touchesFragment t.1)) = [] ∧
    (generate_smart_grid sampleVlessTls quickSearchGroups).length = 12 ∧
    ((generate_quick_grid sampleVlessTls).filter (fun t => touchesFragment t.1)).length = 15 :=
  ⟨rfl, rfl, rfl⟩

/-- C5 (counterexample): the shadowsocks builder never passes the
BaseConfig to the sockopt builder, so a fragment length carried by a
shadowsocks BaseConfig is silently dropped: at sampleSsFrag (which carries
fragment_length "50-100") the baseline document has no fragment block at
all, refuting the claimed config-value precedence for shadowsocks. -/
theorem config_fragment_default_cex : ¬ configFragmentDefaultClaim := by
  intro h
  have h2 := h sampleSsFrag 10808 "50-100" (by decide) rfl (by decide)
  have h3 : (build_xray_json sampleSsFrag {} 10808).map fragLenOf = .ok none := rfl
  have h4 := h3.symm.trans h2
  simp at h4

/-- C5 (amended): override precedence for the fragment length is strict
for the vless, vmess and trojan variants — explicit override first, then
the BaseConfig's own value, then the compiled-in default "100-200" when
the fragment block is triggered by another member — while the shadowsocks
variant consults only explicit overrides: its builder does not pass the
BaseConfig to the sockopt builder, so without a fragment override the
generated shadowsocks document carries no fragment block even when the
BaseConfig has fragment values. -/
theorem fragment_precedence (cfg : BaseConfig) (ov : Overrides) (port : Nat) :
    (∀ l, ov.fragment_length = some l → l ≠ "" → cfg.protocol ∈ recognizedProtocols →
      (build_xray_json cfg ov port).map fragLenOf = .ok (some l)) ∧
    (∀ l, ov.fragment_length = none → cfg.fragment_length = some l → l ≠ "" →
      cfg.protocol ∈ ["vless", "vmess", "trojan"] →
      (build_xray_json cfg ov port).map fragLenOf = .ok (some l)) ∧
    (∀ i, ov.fragment_length = none → cfg.fragment_length = none →
      ov.fragment_interval = some i → i ≠ "" → cfg.protocol ∈ recognizedProtocols →
      (build_xray_json cfg ov port).map fragLenOf = .ok (some "100-200")) ∧
    (cfg.protocol = "shadowsocks" → ov.fragment_length = none → ov.fragment_interval = none →
      ov.fragment_packets = none →
      (build_xray_json cfg ov port).map fragLenOf = .ok none) := by
  refine ⟨?_, ?_, ?_, ?_⟩
  · intro l hov hl hp
    unfold build_xray_json
    split_ifs with h1 h2 h3 h4
    · simp [Except.map, fragLenOf, buildVlessOutbound, buildStreamSettings, applySockopt,
        hov, sTruthy, pyOr, hl]
    · simp [Except.map, fragLenOf, buildVmessOutbound, buildStreamSettings, applySockopt,
        hov, sTruthy, pyOr, hl]
    · simp [Except.map, fragLenOf, buildTrojanOutbound, buildStreamSettings, applySockopt,
        hov, sTruthy, pyOr, hl]
    · simp [Except.map, fragLenOf, buildShadowsocksOutbound, ssStream, applySockopt,
        hov, sTruthy, pyOr, hl]
    · simp [recognizedProtocols, h1, h2, h3, h4] at hp
  · intro l hov hcfg hl hp
    unfold build_xray_json
    split_ifs with h1 h2 h3 h4
    · simp [Except.map, fragLenOf, buildVlessOutbound, buildStreamSettings, applySockopt,
        hov, hcfg, sTruthy, pyOr, hl]
    · simp [Except.map, fragLenOf, buildVmessOutbound, buildStreamSettings, applySockopt,
        hov, hcfg, sTruthy, pyOr, hl]
    · simp [Except.map, fragLenOf, buildTrojanOutbound, buildStreamSettings, applySockopt,
        hov, hcfg, sTruthy, pyOr, hl]
    · simp [h4] at hp
    · simp [h1, h2, h3] at hp
  · intro i hov hcfg hoi hi hp
    unfold build_xray_json
    split_ifs with h1 h2 h3 h4
    · simp [Except.map, fragLenOf, buildVlessOutbound, buildStreamSettings, applySockopt,
        hov, hcfg, hoi, sTruthy, pyOr, hi]
    · simp [Except.map, fragLenOf, buildVmessOutbound, buildStreamSettings, applySockopt,
        hov, hcfg, hoi, sTruthy, pyOr, hi]
    · simp [Except.map, fragLenOf, buildTrojanOutbound, buildStreamSettings, applySockopt,
        hov, hcfg, hoi, sTruthy, pyOr, hi]
    · simp [Except.map, fragLenOf, buildShadowsocksOutbound, ssStream, applySockopt,
        hov, hcfg, hoi, sTruthy, pyOr, hi]
    · simp [recognizedProtocols, h1, h2, h3, h4] at hp
  · intro hss hov1 hov2 hov3
    unfold build_xray_json
    rw [hss]
    simp only [Except.map, fragLenOf, buildShadowsocksOutbound, ssStream, applySockopt,
      hov1, hov2, hov3, sTruthy]
    split_ifs <;> simp_all

/-- C5 (witness): the precedence theorem applied at concrete inputs — an
explicit override wins on shadowsocks, a trojan BaseConfig's own fragment
length is used when no override is given, and the same value on a
shadowsocks BaseConfig is dropped. -/
theorem fragment_precedence_witness :
    (build_xray_json sampleSsFrag { fragment_length := some "1-1" } 10808).map fragLenOf =
      .ok (some "1-1") ∧
    (build_xray_json sampleTrojanFrag {} 10808).map fragLenOf = .ok (some "50-100") ∧
    (build_xray_json sampleSsFrag {} 10808).map fragLenOf = .ok none :=
  ⟨(fragment_precedence sampleSsFrag { fragment_length := some "1-1" } 10808).1 "1-1" rfl
      (by decide) (by decide),
   (fragment_precedence sampleTrojanFrag {} 10808).2.1 "50-100" rfl rfl (by decide) (by decide),
   (fragment_precedence sampleSsFrag {} 10808).2.2.2 rfl rfl rfl rfl⟩
